import Mathlib

/-!
Shallow embedding of the compliment-of-the-day bot (Python sources:
`src/db/models.py`, `src/db/manager.py`, `src/translations.py`,
`src/news.py`, `src/compliment.py`, `src/bot/jobs.py`).

Modelling conventions:
* Dates are `Nat` (an abstract day ordinal); languages are `String`;
  chat ids and hours are `Int` (Python ints).
* Python exceptions are the `PyErr` type; a function body that can raise
  returns `Except PyErr _`, and a `try/except` in the source is an explicit
  `match` on that value.  Exception messages are dropped.
* The SQLAlchemy tables are association lists of rows; the primary key
  of `compliments` is (date, language), of `user_settings` is `chat_id`.
  A commit that violates the `compliments` primary key raises
  (`IntegrityError`), modelled as `PyErr.integrityError`; `rollback`
  means the caller keeps the old list.
* External services (NewsAPI, the two LLM chains) are oracle fields of
  the corresponding client structures: each oracle gives the outcome
  (`Except PyErr _`) the underlying call would have produced.
* Translation YAML files are modelled as flat tables keyed by the
  dot-path (`files : String → Option (List (String × String))`, language
  to key/value table); nested-dict navigation in `get_translation`
  becomes a flat lookup of the dot-path key.
-/

/-- Python exceptions, with messages dropped. -/
inductive PyErr where
  | typeError
  | valueError
  | integrityError
  | apiError
  | modelError
  | unboundLocalError
  deriving DecidableEq, Repr

/-- True exactly when an `Except` value is an error (a raised exception). -/
def exceptErr {ε α : Type} : Except ε α → Bool
  | .error _ => true
  | .ok _ => false

/-- Row of the `compliments` table (src/db/models.py, class Compliment):
primary key (date, language), payload `content`. -/
structure Compliment where
  date : Nat
  language : String
  content : String
  deriving DecidableEq, Repr

/-- Row of the `user_settings` table (src/db/models.py, class UserSettings):
primary key `chat_id`; column defaults hour=8, language="en",
activated=False. -/
structure UserSettings where
  chat_id : Int
  hour : Int := 8
  language : String := "en"
  activated : Bool := false
  deriving DecidableEq, Repr

/-- Whether a `compliments` row with primary key (d, lang) exists. -/
def hasKey (store : List Compliment) (d : Nat) (lang : String) : Bool :=
  store.any fun r => r.date = d ∧ r.language = lang

/-- All rows of the store with primary key (d, lang). -/
def rowsForKey (store : List Compliment) (d : Nat) (lang : String) :
    List Compliment :=
  store.filter fun r => r.date = d ∧ r.language = lang

/-- DatabaseManager.add_compliment (src/db/manager.py lines 50-63):
insert a row; a duplicate (date, language) primary key makes the commit
raise IntegrityError, which the method logs, rolls back and re-raises. -/
def add_compliment (store : List Compliment) (compliment_content : String)
    (date : Nat) (language : String) : Except PyErr (List Compliment) :=
  if hasKey store date language then .error .integrityError
  else .ok (store ++ [⟨date, language, compliment_content⟩])

/-- The store an add_compliment caller is left with: the new store on
success, the rolled-back (unchanged) store when the insert raised. -/
def applyAdd (store : List Compliment) (compliment_content : String)
    (date : Nat) (language : String) : List Compliment :=
  match add_compliment store compliment_content date language with
  | .ok s => s
  | .error _ => store

/-- DatabaseManager.get_compliment (src/db/manager.py lines 65-79):
first row matching date and language, its content, else None.
(Query errors are caught inside and give None; the modelled store
always answers.) -/
def get_compliment (store : List Compliment) (date : Nat)
    (language : String) : Option String :=
  (store.find? fun r => r.date = date ∧ r.language = language).map
    (fun r => r.content)

/-- DatabaseManager.get_user_language (src/db/manager.py lines 81-97):
the stored language when the row exists and its language is truthy,
else "en". -/
def get_user_language (users : List UserSettings) (chat_id : Int) : String :=
  match users.find? fun u => u.chat_id = chat_id with
  | some u => if u.language = "" then "en" else u.language
  | none => "en"

/-- DatabaseManager.set_user_language (src/db/manager.py lines 99-118):
raises ValueError unless language is "en" or "ru"; then updates the row
with this chat_id (the primary key, so at most one row matches) or
inserts a new row whose other columns take the model defaults
(hour=8, activated=False). -/
def set_user_language (users : List UserSettings) (chat_id : Int)
    (language : String) : Except PyErr (List UserSettings) :=
  if language ≠ "en" ∧ language ≠ "ru" then .error .valueError
  else if users.any fun u => u.chat_id = chat_id then
    .ok (users.map fun u =>
      if u.chat_id = chat_id then { u with language := language } else u)
  else
    .ok (users ++ [{ chat_id := chat_id, language := language }])

/-- DatabaseManager.set_user_hour (src/db/manager.py lines 134-153):
raises ValueError unless 0 ≤ hour ≤ 23; then updates the row with this
chat_id or inserts UserSettings(chat_id, hour, language="en")
(activated takes the model default False). -/
def set_user_hour (users : List UserSettings) (chat_id : Int)
    (hour : Int) : Except PyErr (List UserSettings) :=
  if ¬ (0 ≤ hour ∧ hour ≤ 23) then .error .valueError
  else if users.any fun u => u.chat_id = chat_id then
    .ok (users.map fun u =>
      if u.chat_id = chat_id then { u with hour := hour } else u)
  else
    .ok (users ++ [{ chat_id := chat_id, hour := hour, language := "en" }])

/-- DatabaseManager.set_user_activated (src/db/manager.py lines 155-181):
updates the row with this chat_id or inserts one with the explicit
defaults hour=8, language="en". -/
def set_user_activated (users : List UserSettings) (chat_id : Int)
    (activated : Bool) : Except PyErr (List UserSettings) :=
  if users.any fun u => u.chat_id = chat_id then
    .ok (users.map fun u =>
      if u.chat_id = chat_id then { u with activated := activated } else u)
  else
    .ok (users ++
      [{ chat_id := chat_id, hour := 8, language := "en",
         activated := activated }])

/-- Translation files: language code to a flat key/value table, or none
when the YAML file for that language does not exist. -/
def TransFiles : Type := String → Option (List (String × String))

/-- load_translations (src/translations.py lines 17-56): languages other
than "en"/"ru" fall back to "en"; a missing file for a non-English
language falls back to the English file; a missing English file gives
the empty table. -/
def load_translations (files : TransFiles) (language : String) :
    List (String × String) :=
  let language := if language = "en" ∨ language = "ru" then language else "en"
  match files language with
  | some t => t
  | none =>
      if language ≠ "en" then
        match files "en" with
        | some t => t
        | none => []
      else []

/-- Python `default or key` for an optional string default: None and ""
are falsy, so they yield the key. -/
def pyStrOr (default : Option String) (key : String) : String :=
  match default with
  | some d => if d = "" then key else d
  | none => key

/-- get_translation (src/translations.py lines 59-86): load the table
for the language; an empty table or a missing key yields
`default or key`. -/
def get_translation (files : TransFiles) (key : String) (language : String)
    (default : Option String) : String :=
  let translations := load_translations files language
  if translations.isEmpty then pyStrOr default key
  else
    match translations.lookup key with
    | some v => v
    | none => pyStrOr default key

/-- A news headline (src/news.py, class Headline): title and short
description. -/
structure Headline where
  title : String
  description : String
  deriving DecidableEq, Repr

/-- FreshHeadlinesRetriever (src/news.py): `newsapi` is the oracle for
`self.newsapi.get_everything` at a target date — either the article
list (already projected to title/description) or the exception the
call raised. -/
structure FreshHeadlinesRetriever where
  newsapi : Nat → Except PyErr (List Headline)

/-- FreshHeadlinesRetriever.get_headlines (src/news.py lines 35-56):
the API result mapped to Headline rows; any exception from the call is
caught and gives the empty list. -/
def get_headlines (r : FreshHeadlinesRetriever) (target_date : Nat) :
    List Headline :=
  match r.newsapi target_date with
  | .ok articles => articles
  | .error _ => []

/-- Structured LLM output (src/compliment.py, class ComplimentModel):
exactly one text field. -/
structure ComplimentModel where
  compliment : String
  deriving DecidableEq, Repr

/-- ComplimentGenerator (src/compliment.py): the news client plus the two
LLM chains built in _setup_chains.  `chains_ok` is False when ChatOpenAI
construction or chain setup failed (both chains are then None);
`single_compliment_chain` is the per-headline candidate oracle and
`select_best_compliment_chain` the selection oracle over the joined
candidate listing — each gives the structured output or the exception
the chain invocation would raise. -/
structure ComplimentGenerator where
  news_client : FreshHeadlinesRetriever
  chains_ok : Bool := true
  single_compliment_chain : Headline → Except PyErr ComplimentModel
  select_best_compliment_chain : String → Except PyErr ComplimentModel

/-- External calls a generation run performs, in order. -/
inductive Event where
  | newsCall (date : Nat)
  | candidateCall (i : Nat)
  | selectorCall (compliments : String)
  | persistRow (date : Nat) (language : String) (text : String)
  deriving DecidableEq, Repr

/-- Whether an event is an invocation of the Candidate Selector. -/
def Event.isSel : Event → Bool
  | .selectorCall _ => true
  | _ => false

/-- ComplimentGenerator._join_compliments (src/compliment.py lines
100-115): the enumerated "Compliment i+1: text" listing joined by
newlines. -/
def join_compliments (results : List ComplimentModel) : String :=
  String.intercalate "\n" (results.enum.map fun p =>
    "Compliment " ++ toString (p.1 + 1) ++ ": " ++ p.2.compliment)

/-- RunnableParallel over the per-headline candidate chains
(src/compliment.py lines 138-147): every branch is invoked; if any
branch raises, the whole parallel invocation raises, otherwise the
per-branch structured outputs are collected in order (which branch's
exception surfaces when several fail is irrelevant downstream). -/
def runnableParallel (gen : Headline → Except PyErr ComplimentModel) :
    List Headline → Except PyErr (List ComplimentModel)
  | [] => .ok []
  | h :: t =>
      match gen h, runnableParallel gen t with
      | .error e, _ => .error e
      | .ok _, .error e => .error e
      | .ok c, .ok cs => .ok (c :: cs)

/-- Outcome of one generation run together with the external calls it
made. -/
structure GenResult where
  result : Option String
  events : List Event
  deriving DecidableEq, Repr

/-- ComplimentGenerator.generate_compliment_for_date (src/compliment.py
lines 124-175): fetch headlines (exceptions already collapsed to [] by
_get_headlines); empty list means warn and return None; uninitialized
chains mean error-log and return None; otherwise invoke the composed
chain (parallel candidates, join, selector) — any exception inside
`chain.invoke` is caught and gives None; a falsy selected text gives
None. -/
def generate_compliment_for_date (g : ComplimentGenerator)
    (target_date : Nat) : GenResult :=
  let headlines := get_headlines g.news_client target_date
  let ev0 := [Event.newsCall target_date]
  if headlines.isEmpty then ⟨none, ev0⟩
  else if ¬ g.chains_ok then ⟨none, ev0⟩
  else
    let ev1 := ev0 ++ (List.range headlines.length).map Event.candidateCall
    match runnableParallel g.single_compliment_chain headlines with
    | .error _ => ⟨none, ev1⟩
    | .ok results =>
        let compliments := join_compliments results
        let ev2 := ev1 ++ [Event.selectorCall compliments]
        match g.select_best_compliment_chain compliments with
        | .error _ => ⟨none, ev2⟩
        | .ok m => ⟨if m.compliment = "" then none else some m.compliment, ev2⟩

/-- Keyword parameters accepted by ComplimentGenerator.__init__
(src/compliment.py lines 22-27) besides self. -/
def complimentGeneratorInitKwParams : List String :=
  ["news_client", "llm_model", "llm_temperature"]

/-- Python binding of keyword arguments to ComplimentGenerator.__init__
(the news client is passed positionally): an unexpected keyword argument
raises TypeError before the body runs. -/
def complimentGeneratorInitCall (kwargs : List String) : Except PyErr Unit :=
  if kwargs.all (fun k => complimentGeneratorInitKwParams.contains k) then
    .ok ()
  else .error .typeError

/-- Python call of g.generate_compliment_for_date with the given
positional arguments: the method requires exactly one (target_date), so
any other arity raises TypeError. -/
def generateComplimentForDateCall (g : ComplimentGenerator)
    (posArgs : List Nat) : Except PyErr GenResult :=
  match posArgs with
  | [d] => .ok (generate_compliment_for_date g d)
  | _ => .error .typeError

/-- Environment of one bot/jobs.py generate_compliment run:
`dbInit` is the outcome of `DatabaseManager()` (raises ValueError when
DATABASE_URL is unset), `store` the compliments table, and `gen` the
generator state the constructor would produce if its call bound. -/
structure JobsEnv where
  dbInit : Except PyErr Unit := .ok ()
  store : List Compliment
  gen : ComplimentGenerator

/-- How a generate_compliment run terminated (which log line it ends on). -/
inductive RunOutcome where
  | existing
  | generated (text : String)
  | warnedNoCompliment
  | errorLogged
  deriving DecidableEq, Repr

/-- Result of one generate_compliment run: terminal outcome, resulting
compliments table, external calls made. -/
structure RunResult where
  outcome : RunOutcome
  store : List Compliment
  events : List Event
  deriving DecidableEq, Repr

/-- The part of the generate_compliment try body after line 53's
constructor call bound (src/bot/jobs.py lines 54-63): the no-argument
generate_compliment_for_date() call, then persistence of a truthy
result via add_compliment, with a warning log for a falsy one. -/
def runAfterInit (env : JobsEnv) (current_date : Nat) (language : String) :
    RunResult :=
  match generateComplimentForDateCall env.gen [] with
  | .error _ => ⟨.errorLogged, env.store, []⟩
  | .ok r =>
      match r.result with
      | some text =>
          if text = "" then ⟨.warnedNoCompliment, env.store, r.events⟩
          else
            match add_compliment env.store text current_date language with
            | .ok s =>
                ⟨.generated text, s,
                  r.events ++ [Event.persistRow current_date language text]⟩
            | .error _ => ⟨.errorLogged, env.store, r.events⟩
      | none => ⟨.warnedNoCompliment, env.store, r.events⟩

/-- generate_compliment (src/bot/jobs.py lines 37-65): inside a
catch-all try — construct the DatabaseManager, short-circuit when a
truthy compliment already exists for (date, language), otherwise
construct ComplimentGenerator(FreshHeadlinesRetriever(), language=...)
(the `language` keyword is not an __init__ parameter), call
generator.generate_compliment_for_date() with no positional argument,
and persist a truthy result via add_compliment.  Any exception reaches
the except branch, which only logs. -/
def generate_compliment (env : JobsEnv) (current_date : Nat)
    (language : String) : RunResult :=
  match env.dbInit with
  | .error _ => ⟨.errorLogged, env.store, []⟩
  | .ok _ =>
    match get_compliment env.store current_date language with
    | some c =>
        if c = "" then
          -- falsy existing content: the `if existing_compliment` check
          -- does not short-circuit, generation proceeds
          match complimentGeneratorInitCall ["language"] with
          | .error _ => ⟨.errorLogged, env.store, []⟩
          | .ok _ => runAfterInit env current_date language
        else ⟨.existing, env.store, []⟩
    | none =>
        match complimentGeneratorInitCall ["language"] with
        | .error _ => ⟨.errorLogged, env.store, []⟩
        | .ok _ => runAfterInit env current_date language

/-- Environment of one bot/jobs.py send_compliment run: the
DatabaseManager() construction outcome, both tables, and the
translation files. -/
structure SendEnv where
  dbInit : Except PyErr Unit := .ok ()
  users : List UserSettings
  store : List Compliment
  files : TransFiles

/-- Fate of one send_compliment invocation: either bot.send_message was
awaited with the given text, or the handler itself raised and nothing
was sent. -/
inductive SendOutcome where
  | sent (text : String)
  | raised (e : PyErr)
  deriving DecidableEq, Repr

/-- send_compliment (src/bot/jobs.py lines 17-34): inside the try,
construct the DatabaseManager, bind the local chat_id from
context.job.chat_id (line 21, after the constructor), read the
subscriber's language and today's compliment, substituting the
language's fallback_compliment translation for a falsy compliment; on
an exception, the except branch sets language to "en" and computes the
English fallback_compliment.  Line 34 then calls
bot.send_message(chat_id=chat_id, text=compliment) outside the try.
When DatabaseManager() raised — the only statement in the modelled try
that can raise, since get_user_language, get_compliment and
get_translation each swallow their own errors — the local chat_id was
never assigned, so line 34 raises UnboundLocalError and nothing is
sent.  The chat_id argument here is the value context.job.chat_id
would yield. -/
def send_compliment (env : SendEnv) (chat_id : Int)
    (current_date : Nat) : SendOutcome :=
  match env.dbInit with
  | .error _ =>
      -- except branch: language := "en" and the English fallback text
      -- are computed, but the send of line 34 reads the unbound local
      -- chat_id and raises
      .raised .unboundLocalError
  | .ok _ =>
      let language := get_user_language env.users chat_id
      match get_compliment env.store current_date language with
      | some c =>
          if c = "" then
            .sent (get_translation env.files "messages.fallback_compliment"
              language none)
          else .sent c
      | none =>
          .sent (get_translation env.files "messages.fallback_compliment"
            language none)

/-! ### Concrete fixtures and invariant definitions -/

/-- A working news client: two headlines for every date. -/
def theVergeRetriever : FreshHeadlinesRetriever :=
  ⟨fun _ => .ok [⟨"t1", "d1"⟩, ⟨"t2", "d2"⟩]⟩

/-- A generator whose news client and both LLM chains always succeed. -/
def happyGen : ComplimentGenerator :=
  { news_client := theVergeRetriever,
    single_compliment_chain := fun _ => .ok ⟨"nice"⟩,
    select_best_compliment_chain := fun _ => .ok ⟨"best"⟩ }

/-- Headline fixture for the fan-out counterexample. -/
def headline0 : Headline := ⟨"t0", "d0"⟩

/-- Second headline fixture. -/
def headline1 : Headline := ⟨"t1", "d1"⟩

/-- A generator whose candidate chain raises for headline0 and succeeds
for headline1, with an always-succeeding selector chain. -/
def failFirstGen : ComplimentGenerator :=
  { news_client := ⟨fun _ => .ok [headline0, headline1]⟩,
    single_compliment_chain := fun h =>
      if h = headline0 then .error .modelError else .ok ⟨"good"⟩,
    select_best_compliment_chain := fun _ => .ok ⟨"best"⟩ }

/-- A generator where both LLM chains always raise (model entirely
unavailable) but the news client works. -/
def allFailGen : ComplimentGenerator :=
  { news_client := theVergeRetriever,
    single_compliment_chain := fun _ => .error .modelError,
    select_best_compliment_chain := fun _ => .error .modelError }

/-- A generator whose news API call raises while both LLM chains work. -/
def downNewsGen : ComplimentGenerator :=
  { news_client := ⟨fun _ => .error .apiError⟩,
    single_compliment_chain := fun _ => .ok ⟨"nice"⟩,
    select_best_compliment_chain := fun _ => .ok ⟨"best"⟩ }

/-- Translation files fixture: one fallback text per supported language. -/
def twoLangFiles : TransFiles := fun l =>
  if l = "en" then some [("messages.fallback_compliment", "You are great")]
  else if l = "ru" then some [("messages.fallback_compliment", "Ty chudo")]
  else none

/-- Delivery fixture: one activated `ru` subscriber; the store has a
stale `ru` row for date 6 and an `en` row for today (7), but no
(7, "ru") row. -/
def ruSubscriberEnv : SendEnv :=
  { users := [{ chat_id := 5, hour := 9, language := "ru",
                activated := true }],
    store := [⟨6, "ru", "old ru"⟩, ⟨7, "en", "today en"⟩],
    files := twoLangFiles }

/-- The subscriber-row invariant: hour in [0, 23] and a supported
language. -/
def userOk (u : UserSettings) : Prop :=
  0 ≤ u.hour ∧ u.hour ≤ 23 ∧ (u.language = "en" ∨ u.language = "ru")

/-- user_settings tables reachable from the empty table through the
DatabaseManager setters — the only code paths that create or mutate
subscriber rows (src/bot/handlers.py uses exactly these three). -/
inductive UReach : List UserSettings → Prop where
  | empty : UReach []
  | setHour {s s' : List UserSettings} {cid h : Int} :
      UReach s → set_user_hour s cid h = .ok s' → UReach s'
  | setLanguage {s s' : List UserSettings} {cid : Int} {l : String} :
      UReach s → set_user_language s cid l = .ok s' → UReach s'
  | setActivated {s s' : List UserSettings} {cid : Int} {b : Bool} :
      UReach s → set_user_activated s cid b = .ok s' → UReach s'

/-! ### Helper lemmas -/

/-- The jobs.py line 53 constructor call binds the unexpected keyword
argument `language`, so it raises TypeError. -/
theorem complimentGeneratorInitCall_language :
    complimentGeneratorInitCall ["language"] = .error .typeError := rfl

/-- An error value is an error. -/
theorem exceptErr_eq_error {ε α : Type} (e : Except ε α)
    (h : exceptErr e = true) : ∃ err, e = .error err := by
  cases e with
  | error err => exact ⟨err, rfl⟩
  | ok a => simp [exceptErr] at h

/-- If any branch of the parallel candidate fan-out raises, the whole
parallel invocation raises. -/
theorem runnableParallel_error_of_mem
    (gen : Headline → Except PyErr ComplimentModel) (l : List Headline)
    (x : Headline) (hx : x ∈ l) (he : exceptErr (gen x) = true) :
    exceptErr (runnableParallel gen l) = true := by
  induction l with
  | nil => cases hx
  | cons a t ih =>
      unfold runnableParallel
      cases hgen : gen a with
      | error e => rfl
      | ok c =>
          cases hrp : runnableParallel gen t with
          | error e => rfl
          | ok cs =>
              exfalso
              rcases List.mem_cons.mp hx with h | h
              · rw [h, hgen] at he; simp [exceptErr] at he
              · have ht := ih h
                rw [hrp] at ht; simp [exceptErr] at ht

/-- A generate_compliment run never changes the compliments table: every
reachable branch either short-circuits or dies on the TypeError from the
`language=` keyword of the line 53 constructor call. -/
theorem generate_compliment_store_eq (env : JobsEnv) (d : Nat)
    (lang : String) : (generate_compliment env d lang).store = env.store := by
  unfold generate_compliment
  cases env.dbInit with
  | error e => rfl
  | ok u =>
      cases get_compliment env.store d lang with
      | none => rw [complimentGeneratorInitCall_language]
      | some c =>
          by_cases hc : c = "" <;>
            simp [hc, complimentGeneratorInitCall_language]

/-- The events emitted before selection contain no selector call. -/
theorem filter_isSel_pre (d n : Nat) :
    ([Event.newsCall d] ++ (List.range n).map Event.candidateCall).filter
      Event.isSel = [] := by
  rw [List.filter_eq_nil_iff]
  intro a ha
  rcases List.mem_append.mp ha with h | h
  · rcases List.mem_singleton.mp h with rfl
    simp [Event.isSel]
  · obtain ⟨i, _, rfl⟩ := List.mem_map.mp h
    simp [Event.isSel]

/-- If the candidate chain raises for some fetched headline, the whole
generate_compliment_for_date run yields no compliment and never reaches
the selector chain. -/
theorem gcfd_aborts_of_mem_error (g : ComplimentGenerator) (d : Nat)
    (hl : Headline) (hmem : hl ∈ get_headlines g.news_client d)
    (herr : exceptErr (g.single_compliment_chain hl) = true) :
    (generate_compliment_for_date g d).result = none ∧
    (generate_compliment_for_date g d).events.filter Event.isSel = [] := by
  have hperr := runnableParallel_error_of_mem g.single_compliment_chain _
    hl hmem herr
  obtain ⟨err, heq⟩ := exceptErr_eq_error _ hperr
  cases hhs : get_headlines g.news_client d with
  | nil => rw [hhs] at hmem; cases hmem
  | cons a t =>
      rw [hhs] at heq
      by_cases hok : g.chains_ok = true
      · simp only [generate_compliment_for_date, hhs, List.isEmpty_cons,
          hok, not_true, if_false, heq]
        exact ⟨rfl, filter_isSel_pre d (a :: t).length⟩
      · simp only [generate_compliment_for_date, hhs, List.isEmpty_cons,
          hok, not_false_iff, if_true, if_false]
        exact ⟨rfl, by simp [Event.isSel]⟩

/-! ### Claims -/

/-- Claim C6: for every (date, language) with no DailyMessage row yet, a
generate_compliment run constructs ComplimentGenerator with the keyword
argument `language` that its __init__ does not accept (so the call to
generate_compliment_for_date without target_date is never even reached);
the TypeError lands in the catch-all handler, so the run ends on the
error log, invokes neither the news client nor the language model
(no events) and persists nothing (store unchanged). -/
theorem c6_generation_run_typeerror (env : JobsEnv) (d : Nat)
    (lang : String) (hdb : env.dbInit = .ok ())
    (hnone : get_compliment env.store d lang = none) :
    generate_compliment env d lang = ⟨.errorLogged, env.store, []⟩ := by
  unfold generate_compliment
  rw [hdb, hnone, complimentGeneratorInitCall_language]

/-- Witness for C6 at a concrete empty store. -/
theorem c6_generation_run_typeerror_witness :
    generate_compliment { store := [], gen := happyGen } 11 "ru" =
      ⟨.errorLogged, [], []⟩ :=
  c6_generation_run_typeerror { store := [], gen := happyGen } 11 "ru" rfl rfl

/-- Claim C1 (code-bug evaluation): with an empty compliments table and
fully working news and LLM oracles, two consecutive generate_compliment
runs for (7, "en") both end on the catch-all error log, make no external
calls, and leave zero rows for the key — where the spec's idempotence
property promises exactly one persisted row. -/
theorem c1_two_runs_persist_nothing :
    generate_compliment { store := [], gen := happyGen } 7 "en" =
      ⟨.errorLogged, [], []⟩ ∧
    generate_compliment
      { store :=
          (generate_compliment { store := [], gen := happyGen } 7 "en").store,
        gen := happyGen } 7 "en" = ⟨.errorLogged, [], []⟩ ∧
    rowsForKey
      (generate_compliment
        { store :=
            (generate_compliment { store := [], gen := happyGen } 7 "en").store,
          gen := happyGen } 7 "en").store 7 "en" = [] :=
  ⟨rfl, rfl, rfl⟩

/-- Claim C2 counterexample: the candidate generator fails for item 0
while item 1's candidate succeeds, yet the run produces no compliment
and the selector is never invoked — the surviving candidate is not
collected and selection does not run. -/
theorem c2_single_failure_blocks_selection_cx :
    failFirstGen.single_compliment_chain headline1 = .ok ⟨"good"⟩ ∧
    (generate_compliment_for_date failFirstGen 7).result = none ∧
    (generate_compliment_for_date failFirstGen 7).events.filter Event.isSel
      = [] :=
  ⟨rfl, rfl, rfl⟩

/-- Claim C2 (amended): a Candidate Generator failure for any fetched
item aborts the entire chain invocation — the run yields no compliment
and the Candidate Selector is never invoked, even when other items'
candidates would have succeeded. -/
theorem c2_failure_aborts_whole_run (g : ComplimentGenerator) (d : Nat)
    (h : ∃ hl ∈ get_headlines g.news_client d,
      exceptErr (g.single_compliment_chain hl) = true) :
    (generate_compliment_for_date g d).result = none ∧
    (generate_compliment_for_date g d).events.filter Event.isSel = [] := by
  obtain ⟨hl, hmem, herr⟩ := h
  exact gcfd_aborts_of_mem_error g d hl hmem herr

/-- Witness for the amended C2 at the concrete mixed-failure generator. -/
theorem c2_failure_aborts_whole_run_witness :
    (generate_compliment_for_date failFirstGen 7).result = none ∧
    (generate_compliment_for_date failFirstGen 7).events.filter Event.isSel
      = [] :=
  c2_failure_aborts_whole_run failFirstGen 7
    ⟨headline0, by simp [failFirstGen, get_headlines], rfl⟩

/-- Claim C3: if every Candidate Generator call fails, the run yields no
compliment, the Candidate Selector is never invoked, and no DailyMessage
row is persisted for the (date, language) run (the jobs-level store is
unchanged). -/
theorem c3_all_fail_no_persist_no_selector (g : ComplimentGenerator)
    (d : Nat) (store : List Compliment) (lang : String)
    (hall : ∀ hl ∈ get_headlines g.news_client d,
      exceptErr (g.single_compliment_chain hl) = true) :
    (generate_compliment_for_date g d).result = none ∧
    (generate_compliment_for_date g d).events.filter Event.isSel = [] ∧
    (generate_compliment { store := store, gen := g } d lang).store
      = store := by
  have hmain : (generate_compliment_for_date g d).result = none ∧
      (generate_compliment_for_date g d).events.filter Event.isSel = [] := by
    cases hhs : get_headlines g.news_client d with
    | nil =>
        refine ⟨?_, ?_⟩ <;>
          simp [generate_compliment_for_date, hhs, Event.isSel]
    | cons a t =>
        have hmem : a ∈ get_headlines g.news_client d := by
          rw [hhs]; exact List.mem_cons_self a t
        exact gcfd_aborts_of_mem_error g d a hmem (hall a hmem)
  exact ⟨hmain.1, hmain.2, generate_compliment_store_eq _ d lang⟩

/-- Witness for C3 at a generator whose candidate chain always raises. -/
theorem c3_all_fail_no_persist_no_selector_witness :
    (generate_compliment_for_date allFailGen 7).result = none ∧
    (generate_compliment_for_date allFailGen 7).events.filter Event.isSel
      = [] ∧
    (generate_compliment
      { store := [⟨6, "en", "old"⟩], gen := allFailGen } 7 "en").store
      = [⟨6, "en", "old"⟩] :=
  c3_all_fail_no_persist_no_selector allFailGen 7 [⟨6, "en", "old"⟩] "en"
    (fun _ _ => rfl)

/-- Claim C7: get_headlines never propagates a retrieval failure — an
API exception yields the empty list — and the orchestrator treats an
empty headline list as a degraded day: generate_compliment_for_date
returns no compliment after only the news call (the warning branch),
instead of raising. -/
theorem c7_headlines_total_empty_warn (g : ComplimentGenerator)
    (d : Nat) :
    (exceptErr (g.news_client.newsapi d) = true →
      get_headlines g.news_client d = []) ∧
    (get_headlines g.news_client d = [] →
      generate_compliment_for_date g d = ⟨none, [Event.newsCall d]⟩) := by
  constructor
  · intro h
    obtain ⟨err, heq⟩ := exceptErr_eq_error _ h
    simp [get_headlines, heq]
  · intro h
    simp [generate_compliment_for_date, h]

/-- Witness for C7 at a news client whose API call raises. -/
theorem c7_headlines_total_empty_warn_witness :
    get_headlines downNewsGen.news_client 7 = [] ∧
    generate_compliment_for_date downNewsGen 7 =
      ⟨none, [Event.newsCall 7]⟩ :=
  ⟨(c7_headlines_total_empty_warn downNewsGen 7).1 rfl,
   (c7_headlines_total_empty_warn downNewsGen 7).2
     ((c7_headlines_total_empty_warn downNewsGen 7).1 rfl)⟩

/-- Claim C4 counterexample: a write of DailyMessage(7, "en") into a
store already holding that key is not a successful no-op — add_compliment
re-raises the IntegrityError after rollback, so the persist step fails. -/
theorem c4_duplicate_key_raises_cx :
    add_compliment [⟨7, "en", "existing"⟩] "second" 7 "en" =
      .error .integrityError := rfl

/-- Claim C4 (amended): a uniqueness violation at persist time makes
add_compliment roll back and re-raise IntegrityError rather than being
treated as success; the caller's store is unchanged (so exactly one row
for the key remains), and the orchestrator's catch-all absorbs the
exception, so neither run crashes. -/
theorem c4_duplicate_key_reraised_caught (store : List Compliment)
    (c : String) (d : Nat) (lang : String)
    (h : hasKey store d lang = true) :
    add_compliment store c d lang = .error .integrityError ∧
    applyAdd store c d lang = store ∧
    ((rowsForKey store d lang).length = 1 →
      (rowsForKey (applyAdd store c d lang) d lang).length = 1) := by
  refine ⟨?_, ?_, ?_⟩ <;> simp [add_compliment, applyAdd, h]

/-- Witness for the amended C4 at a concrete one-row store. -/
theorem c4_duplicate_key_reraised_caught_witness :
    add_compliment [⟨8, "ru", "x"⟩] "y" 8 "ru" = .error .integrityError ∧
    applyAdd [⟨8, "ru", "x"⟩] "y" 8 "ru" = [⟨8, "ru", "x"⟩] ∧
    ((rowsForKey [⟨8, "ru", "x"⟩] 8 "ru").length = 1 →
      (rowsForKey (applyAdd [⟨8, "ru", "x"⟩] "y" 8 "ru") 8 "ru").length
        = 1) :=
  c4_duplicate_key_reraised_caught [⟨8, "ru", "x"⟩] "y" 8 "ru" rfl

/-- Claim C8: a persist touches only its own (date, language) key — for
any other key, the rows after the add_compliment attempt (successful or
rejected) are exactly the rows before, so writing `en` neither creates
nor overwrites `ru` rows for the same date, and vice versa. -/
theorem c8_language_frame_isolation (store : List Compliment) (c : String)
    (d : Nat) (lang : String) (d' : Nat) (l' : String)
    (h : ¬ (d' = d ∧ l' = lang)) :
    rowsForKey (applyAdd store c d lang) d' l' = rowsForKey store d' l' := by
  unfold applyAdd add_compliment
  by_cases hk : hasKey store d lang = true
  · simp [hk]
  · simp only [hk, Bool.false_eq_true, if_false]
    unfold rowsForKey
    rw [List.filter_append]
    have hone : List.filter
        (fun (r : Compliment) => decide (r.date = d' ∧ r.language = l'))
        [⟨d, lang, c⟩] = [] := by
      simp only [List.filter]
      have hdec : decide (d = d' ∧ lang = l') = false := by
        rw [decide_eq_false_iff_not]
        intro hc
        exact h ⟨hc.1.symm, hc.2.symm⟩
      rw [hdec]
    rw [hone, List.append_nil]

/-- Witness for C8: adding an `en` row for date 9 leaves the `ru` rows
of date 9 unchanged. -/
theorem c8_language_frame_isolation_witness :
    rowsForKey (applyAdd [⟨9, "ru", "r"⟩] "e" 9 "en") 9 "ru" =
      rowsForKey [⟨9, "ru", "r"⟩] 9 "ru" :=
  c8_language_frame_isolation [⟨9, "ru", "r"⟩] "e" 9 "en" 9 "ru" (by decide)

/-- When no row of the store carries the key (d, lang), get_compliment
answers none. -/
theorem get_compliment_eq_none (store : List Compliment) (d : Nat)
    (lang : String)
    (h : ∀ r ∈ store, r.language = lang → r.date ≠ d) :
    get_compliment store d lang = none := by
  unfold get_compliment
  have hfind : store.find?
      (fun r => decide (r.date = d ∧ r.language = lang)) = none := by
    rw [List.find?_eq_none]
    intro r hr
    simp only [decide_eq_true_eq]
    intro hc
    exact h r hr hc.2 hc.1
  rw [hfind]
  rfl

/-- get_translation finds the configured text when the language is a
supported one whose file exists and holds the key. -/
theorem get_translation_found (files : TransFiles) (key lang : String)
    (tbl : List (String × String)) (fb : String)
    (hl : lang = "en" ∨ lang = "ru")
    (hfile : files lang = some tbl)
    (hkey : tbl.lookup key = some fb) :
    get_translation files key lang none = fb := by
  have hne : tbl.isEmpty = false := by
    cases tbl with
    | nil => simp [List.lookup] at hkey
    | cons a t => rfl
  simp only [get_translation, load_translations, if_pos hl, hfile, hne,
    Bool.false_eq_true, if_false, hkey]

/-- Claim C5: for a subscriber whose language has no DailyMessage row
for today, send_compliment sends exactly the configured static fallback
text for that subscriber's language — not an error text and, because
get_compliment filters on today's date, not a message stored under
another date. -/
theorem c5_fallback_delivery (env : SendEnv) (chat_id : Int) (d : Nat)
    (tbl : List (String × String)) (fb : String)
    (hdb : env.dbInit = .ok ())
    (hlang : get_user_language env.users chat_id = "en" ∨
      get_user_language env.users chat_id = "ru")
    (hnorow : ∀ r ∈ env.store,
      r.language = get_user_language env.users chat_id → r.date ≠ d)
    (hfile : env.files (get_user_language env.users chat_id) = some tbl)
    (hkey : tbl.lookup "messages.fallback_compliment" = some fb) :
    send_compliment env chat_id d = .sent fb := by
  simp only [send_compliment, hdb,
    get_compliment_eq_none _ _ _ hnorow]
  exact congrArg SendOutcome.sent
    (get_translation_found _ _ _ _ _ hlang hfile hkey)

/-- Witness for C5: the ru subscriber gets the ru fallback text. -/
theorem c5_fallback_delivery_witness :
    send_compliment ruSubscriberEnv 5 7 = .sent "Ty chudo" :=
  c5_fallback_delivery ruSubscriberEnv 5 7
    [("messages.fallback_compliment", "Ty chudo")] "Ty chudo"
    rfl (Or.inr rfl) (by decide) rfl rfl

/-- Claim C10 counterexample: with DatabaseManager construction failing
for the ru subscriber's delivery, the handler does not send the English
fallback text — the send of line 34 reads the chat_id local that the
failed try never assigned, so the run raises UnboundLocalError and
nothing reaches the chat. -/
theorem c10_unbound_chat_id_cx :
    send_compliment { ruSubscriberEnv with dbInit := .error .valueError }
      5 7 = .raised .unboundLocalError ∧
    send_compliment { ruSubscriberEnv with dbInit := .error .valueError }
      5 7 ≠ .sent "You are great" :=
  ⟨rfl, by decide⟩

/-- Claim C10 (amended): when the try body of send_compliment raises
(DatabaseManager construction failing, the only raising statement in
the modelled try), the except branch sets language to "en" and computes
the English fallback_compliment text, but chat_id — assigned at
jobs.py:21, after the constructor — is unbound, so the final
bot.send_message raises UnboundLocalError: the job crashes and no
message of any language is sent to the chat. -/
theorem c10_error_path_unbound_local (env : SendEnv) (chat_id : Int)
    (d : Nat) (e : PyErr) (hdb : env.dbInit = .error e) :
    send_compliment env chat_id d = .raised .unboundLocalError := by
  simp only [send_compliment, hdb]

/-- Witness for the amended C10 at the concrete failing environment. -/
theorem c10_error_path_unbound_local_witness :
    send_compliment { ruSubscriberEnv with dbInit := .error .valueError }
      5 7 = .raised .unboundLocalError :=
  c10_error_path_unbound_local
    { ruSubscriberEnv with dbInit := .error .valueError } 5 7 .valueError
    rfl

/-- A successful set_user_hour keeps every row in the invariant. -/
theorem set_user_hour_preserves (s s' : List UserSettings) (cid h : Int)
    (hs : ∀ u ∈ s, userOk u) (hok : set_user_hour s cid h = .ok s') :
    ∀ u ∈ s', userOk u := by
  unfold set_user_hour at hok
  by_cases hrange : 0 ≤ h ∧ h ≤ 23
  · rw [if_neg (not_not_intro hrange)] at hok
    by_cases hex : (s.any fun u => u.chat_id = cid) = true
    · rw [if_pos hex] at hok
      injection hok with hok
      subst hok
      intro u hu
      obtain ⟨v, hv, rfl⟩ := List.mem_map.mp hu
      by_cases hc : v.chat_id = cid
      · simp only [hc, if_true]
        exact ⟨hrange.1, hrange.2, (hs v hv).2.2⟩
      · simp only [hc, if_false]
        exact hs v hv
    · rw [if_neg hex] at hok
      injection hok with hok
      subst hok
      intro u hu
      rcases List.mem_append.mp hu with hu | hu
      · exact hs u hu
      · rcases List.mem_singleton.mp hu with rfl
        exact ⟨hrange.1, hrange.2, Or.inl rfl⟩
  · rw [if_pos hrange] at hok
    cases hok

/-- A successful set_user_language keeps every row in the invariant. -/
theorem set_user_language_preserves (s s' : List UserSettings) (cid : Int)
    (l : String) (hs : ∀ u ∈ s, userOk u)
    (hok : set_user_language s cid l = .ok s') : ∀ u ∈ s', userOk u := by
  unfold set_user_language at hok
  by_cases hval : l ≠ "en" ∧ l ≠ "ru"
  · rw [if_pos hval] at hok
    cases hok
  · have hl : l = "en" ∨ l = "ru" := by
      by_cases h1 : l = "en"
      · exact Or.inl h1
      · by_cases h2 : l = "ru"
        · exact Or.inr h2
        · exact absurd ⟨h1, h2⟩ hval
    rw [if_neg hval] at hok
    by_cases hex : (s.any fun u => u.chat_id = cid) = true
    · rw [if_pos hex] at hok
      injection hok with hok
      subst hok
      intro u hu
      obtain ⟨v, hv, rfl⟩ := List.mem_map.mp hu
      by_cases hc : v.chat_id = cid
      · simp only [hc, if_true]
        exact ⟨(hs v hv).1, (hs v hv).2.1, hl⟩
      · simp only [hc, if_false]
        exact hs v hv
    · rw [if_neg hex] at hok
      injection hok with hok
      subst hok
      intro u hu
      rcases List.mem_append.mp hu with hu | hu
      · exact hs u hu
      · rcases List.mem_singleton.mp hu with rfl
        exact ⟨by norm_num, by norm_num, hl⟩

/-- A successful set_user_activated keeps every row in the invariant. -/
theorem set_user_activated_preserves (s s' : List UserSettings)
    (cid : Int) (b : Bool) (hs : ∀ u ∈ s, userOk u)
    (hok : set_user_activated s cid b = .ok s') : ∀ u ∈ s', userOk u := by
  unfold set_user_activated at hok
  by_cases hex : (s.any fun u => u.chat_id = cid) = true
  · rw [if_pos hex] at hok
    injection hok with hok
    subst hok
    intro u hu
    obtain ⟨v, hv, rfl⟩ := List.mem_map.mp hu
    by_cases hc : v.chat_id = cid
    · simp only [hc, if_true]
      exact hs v hv
    · simp only [hc, if_false]
      exact hs v hv
  · rw [if_neg hex] at hok
    injection hok with hok
    subst hok
    intro u hu
    rcases List.mem_append.mp hu with hu | hu
    · exact hs u hu
    · rcases List.mem_singleton.mp hu with rfl
      exact ⟨by norm_num, by norm_num, Or.inl rfl⟩

/-- Claim C9: every subscriber table reachable through the setters has
hour in [0, 23] and language in \x7ben, ru\x7d in every row;
set_user_hour raises ValueError on any out-of-range hour and
set_user_language raises ValueError on any unsupported language; the
row-creating paths (including set_user_activated's defaults) only ever
supply in-range values. -/
theorem c9_subscriber_invariant :
    (∀ s, UReach s → ∀ u ∈ s, userOk u) ∧
    (∀ (s : List UserSettings) (cid h : Int), ¬ (0 ≤ h ∧ h ≤ 23) →
      set_user_hour s cid h = .error .valueError) ∧
    (∀ (s : List UserSettings) (cid : Int) (l : String),
      l ≠ "en" ∧ l ≠ "ru" →
      set_user_language s cid l = .error .valueError) := by
  refine ⟨?_, ?_, ?_⟩
  · intro s hs
    induction hs with
    | empty => intro u hu; cases hu
    | setHour hr hok ih => exact set_user_hour_preserves _ _ _ _ ih hok
    | setLanguage hr hok ih =>
        exact set_user_language_preserves _ _ _ _ ih hok
    | setActivated hr hok ih =>
        exact set_user_activated_preserves _ _ _ _ ih hok
  · intro s cid h hh
    unfold set_user_hour
    rw [if_pos hh]
  · intro s cid l hl
    unfold set_user_language
    rw [if_pos hl]

/-- Witness for C9: a table reached by one set_user_hour call satisfies
the invariant; hour 24 and language "de" are rejected. -/
theorem c9_subscriber_invariant_witness :
    (∀ u ∈ ([⟨1, 10, "en", false⟩] : List UserSettings),
      userOk u) ∧
    set_user_hour [] 1 24 = .error .valueError ∧
    set_user_language [] 1 "de" = .error .valueError :=
  ⟨c9_subscriber_invariant.1 _
    (@UReach.setHour [] [⟨1, 10, "en", false⟩] 1 10 UReach.empty rfl),
   c9_subscriber_invariant.2.1 [] 1 24 (by decide),
   c9_subscriber_invariant.2.2 [] 1 "de" (by decide)⟩
